import Mathlib

/-!
Verification of the youtube-agent repository: a shallow embedding of the
dialogue-turn state machine (`agent.py`), the YouTube retrieval module
(`modules/ytinteraction.py`) and the document-ingestion entry point
(`modules/vectorization.py`), together with theorems settling the spec's
claims about them.

External effects (the YouTube API, the transcript API, HTTP requests, the
clock) are passed in as explicit parameters; Python exceptions are modelled
with `Except String`; Python `None` with `Option`.
-/

namespace YoutubeAgent

/-! ## Messages and the agent graph (src/agent.py) -/

/-- A tool invocation request carried by an assistant message
(langchain's tool-call entries: tool name, argument mapping, id). -/
structure ToolInvocationRequest where
  name : String
  args : List (String × String)
  id : String
  deriving DecidableEq, Repr

/-- A conversation message: langchain's SystemMessage / HumanMessage /
AIMessage (with its list of tool calls) / ToolMessage (with the id of the
tool call it answers). -/
inductive Message where
  | system (content : String)
  | human (content : String)
  | ai (content : String) (tool_calls : List ToolInvocationRequest)
  | tool (tool_call_id : String) (content : String)
  deriving DecidableEq, Repr

/-- The state of the agent: the conversation history
(`AgentState` in agent.py; the `operator.add` annotation makes the graph
engine merge node outputs by list concatenation). -/
structure AgentState where
  messages : List Message
  deriving Repr

/-- Routing step `should_continue` of agent.py: looks at the last message;
an `AIMessage` with a truthy (non-empty) `tool_calls` list routes to
"continue", everything else to "end".  Python's `state["messages"][-1]`
raises IndexError on an empty history, modelled by `none`. -/
def should_continue (state : AgentState) : Option String :=
  match state.messages.getLast? with
  | none => none
  | some (.ai _ tool_calls) =>
      if tool_calls.isEmpty then some "end" else some "continue"
  | some _ => some "end"

/-! ## Date parsing (Python datetime.strptime with format "%m/%d/%Y") -/

/-- Numeric value of a digit string (most significant first), as the
regex groups of CPython's `_strptime` produce it. -/
def natOfDigits (l : List Char) : Nat :=
  l.foldl (fun n c => 10 * n + (c.toNat - 48)) 0

/-- Every character of the (non-empty) field is an ASCII digit. -/
def isDigits (l : List Char) : Bool :=
  !l.isEmpty && l.all Char.isDigit

/-- Gregorian leap year, as `datetime`'s calendar uses it. -/
def isLeapYear (y : Nat) : Bool :=
  y % 4 == 0 && (y % 100 != 0 || y % 400 == 0)

/-- Number of days of month `m` (1-12) in year `y`. -/
def daysInMonth (y m : Nat) : Nat :=
  if m == 2 then (if isLeapYear y then 29 else 28)
  else if m == 4 || m == 6 || m == 9 || m == 11 then 30
  else 31

/-- Starting code points of the blocks of ten consecutive Unicode decimal
digits that Python's regex `\d` matches and `int()` converts, each block
running from a script's zero digit upward; enumerated from CPython 3.11
(Unicode 14). -/
def ndZeroPoints : List Nat :=
  [48, 1632, 1776, 1984, 2406, 2534, 2662, 2790, 2918, 3046, 3174, 3302,
   3430, 3558, 3664, 3792, 3872, 4160, 4240, 6112, 6160, 6470, 6608, 6784,
   6800, 6992, 7088, 7232, 7248, 42528, 43216, 43264, 43472, 43504, 43600,
   44016, 65296, 66720, 68912, 69734, 69872, 69942, 70096, 70384, 70736,
   70864, 71248, 71360, 71472, 71904, 72016, 72784, 73040, 73120, 92768,
   92864, 93008, 120782, 120792, 120802, 120812, 120822, 123200, 123632,
   125264, 130032]

/-- The decimal value of a Unicode decimal digit — the offset of the
character inside its block of ten — or `none` for any other character. -/
def ndDigitValue (c : Char) : Option Nat :=
  (ndZeroPoints.find? (fun z => decide (z ≤ c.toNat) && decide (c.toNat < z + 10))).map
    (fun z => c.toNat - z)

/-- Python `int()` of a string of Unicode decimal digits (most significant
first, scripts may mix). -/
def natOfNdDigits (l : List Char) : Nat :=
  l.foldl (fun n c => 10 * n + (ndDigitValue c).getD 0) 0

/-- Python `int()` of a matched day group, which may begin with the ASCII
space of `%d`'s space-digit alternative (`int` strips the space). -/
def fieldIntVal (l : List Char) : Nat :=
  match l with
  | c :: rest => if c == ' ' then natOfNdDigits rest else natOfNdDigits (c :: rest)
  | [] => 0

/-- CPython's `%m` directive: regex `1[0-2]|0[1-9]|[1-9]` (ASCII digits
only) — one digit 1-9, or two digits with value 01-12. -/
def parseMonthField (l : List Char) : Option Nat :=
  if isDigits l &&
      ((l.length == 1 && decide (1 ≤ natOfDigits l)) ||
       (l.length == 2 && decide (1 ≤ natOfDigits l) && decide (natOfDigits l ≤ 12))) then
    some (natOfDigits l)
  else none

/-- CPython's `%d` directive: regex `3[0-1]|[1-2]\d|0[1-9]|[1-9]| [1-9]` —
the classes `[0-1]`, `[1-9]` and the leading `0`/`1`/`2`/`3`/space are
ASCII, while the `\d` after a `1` or `2` is ANY Unicode decimal digit, and
the last alternative is an ASCII space before a nonzero digit. The value is
`int()` applied to the matched text. -/
def parseDayField : List Char → Option Nat
  | [c] =>
      if 49 ≤ c.toNat ∧ c.toNat ≤ 57 then some (c.toNat - 48) else none
  | [c1, c2] =>
      if c1 = '3' ∧ (c2 = '0' ∨ c2 = '1') then some (30 + (c2.toNat - 48))
      else if (c1 = '1' ∨ c1 = '2') ∧ (ndDigitValue c2).isSome then
        some (10 * (c1.toNat - 48) + (ndDigitValue c2).getD 0)
      else if c1 = '0' ∧ 49 ≤ c2.toNat ∧ c2.toNat ≤ 57 then some (c2.toNat - 48)
      else if c1 = ' ' ∧ 49 ≤ c2.toNat ∧ c2.toNat ≤ 57 then some (c2.toNat - 48)
      else none
  | _ => none

/-- CPython's `%Y` directive: regex `\d\d\d\d` — exactly four Unicode
decimal digits (scripts may mix); the value is `int()` of the match. -/
def parseYearField (l : List Char) : Option Nat :=
  if (l.all fun c => (ndDigitValue c).isSome) && l.length == 4 then
    some (natOfNdDigits l)
  else none

/-- Split a character list at every `'/'`, with Python's
`str.split('/')` semantics (always at least one field; empty fields kept). -/
def splitSlash : List Char → List (List Char)
  | [] => [[]]
  | c :: t =>
      match splitSlash t with
      | [] => [[]]
      | f :: rest => if c == '/' then [] :: f :: rest else (c :: f) :: rest

/-- Python `datetime.strptime(s, "%m/%d/%Y")`: the whole string must match
`month "/" day "/" year`; the `datetime` constructor then requires
`1 <= year` and the day to exist in that month (else ValueError).
Returns `(month, day, year)`, or `none` for the raised ValueError. -/
def strptime_mdY (s : String) : Option (Nat × Nat × Nat) :=
  match splitSlash s.data with
  | [ms, ds, ys] =>
      match parseMonthField ms, parseDayField ds, parseYearField ys with
      | some m, some d, some y =>
          if decide (1 ≤ y) && decide (d ≤ daysInMonth y m) then some (m, d, y)
          else none
      | _, _, _ => none
  | _ => none

/-- Tool `validate_date_format` of agent.py: true iff
`datetime.strptime(date_str, "%m/%d/%Y")` does not raise. -/
def validate_date_format (date_str : String) : Bool :=
  (strptime_mdY date_str).isSome

/-- The date format the spec describes, from its words: the string parses
exactly as "month/day/year" with a two-digit month in 1-12, a two-digit
day, and a four-digit year. Stated for comparison with
`validate_date_format`. -/
def claimedTwoDigitFormat (s : String) : Bool :=
  match splitSlash s.data with
  | [ms, ds, ys] =>
      isDigits ms && ms.length == 2 &&
        decide (1 ≤ natOfDigits ms) && decide (natOfDigits ms ≤ 12) &&
      isDigits ds && ds.length == 2 &&
      isDigits ys && ys.length == 4
  | _ => false

/-- The shapes of a day field `%d` accepts: one ASCII digit 1-9; '3'
before '0' or '1'; '1' or '2' before any Unicode decimal digit; '0' or an
ASCII space before an ASCII digit 1-9. -/
def dayShape : List Char → Bool
  | [c] => decide (49 ≤ c.toNat ∧ c.toNat ≤ 57)
  | [c1, c2] =>
      decide (c1 = '3' ∧ (c2 = '0' ∨ c2 = '1')) ||
      (decide (c1 = '1' ∨ c1 = '2') && (ndDigitValue c2).isSome) ||
      decide (c1 = '0' ∧ 49 ≤ c2.toNat ∧ c2.toNat ≤ 57) ||
      decide (c1 = ' ' ∧ 49 ≤ c2.toNat ∧ c2.toNat ≤ 57)
  | _ => false

/-- The amended date format: the string splits as "month/day/year" where
the month is one or two ASCII digits with value 1-12, the day has one of
the `%d` shapes of `dayShape` (including the space-digit and the
1-or-2-before-Unicode-digit alternatives), the year is exactly four
Unicode decimal digits, and the denoted date must exist in the calendar —
year at least 1 and the day no larger than the length of that month. -/
def amendedDateFormat (s : String) : Bool :=
  match splitSlash s.data with
  | [ms, ds, ys] =>
      isDigits ms && (ms.length == 1 || ms.length == 2) &&
        decide (1 ≤ natOfDigits ms) && decide (natOfDigits ms ≤ 12) &&
      dayShape ds &&
      (ys.all fun c => (ndDigitValue c).isSome) && ys.length == 4 &&
      decide (1 ≤ natOfNdDigits ys) &&
      decide (fieldIntVal ds ≤ daysInMonth (natOfNdDigits ys) (natOfDigits ms))
  | _ => false

/-! ## Publish-date bounds (modules/ytinteraction.py, ytretriever) -/

/-- A Python `datetime` value. Every datetime built in the retriever carries
`tzinfo=timezone.utc`, so the timezone is left implicit. -/
structure DateTime where
  year : Nat
  month : Nat
  day : Nat
  hour : Nat
  minute : Nat
  second : Nat
  microsecond : Nat
  deriving DecidableEq, Repr

/-- Truncate a datetime to the start of its day
(Python `.replace(hour=0, minute=0, second=0, microsecond=0)`). -/
def startOfDay (dt : DateTime) : DateTime :=
  ⟨dt.year, dt.month, dt.day, 0, 0, 0, 0⟩

/-- dateutil `relativedelta(years=n)` subtraction: decrement the year and
clamp the day to the length of the resulting month (Feb 29 falls back to
Feb 28 in a non-leap year). -/
def subYears (n : Nat) (dt : DateTime) : DateTime :=
  ⟨dt.year - n, dt.month, min dt.day (daysInMonth (dt.year - n) dt.month),
   dt.hour, dt.minute, dt.second, dt.microsecond⟩

/-- Python truthiness of an optional string argument (`if before:`):
false for `None` and for the empty string. -/
def truthyStr : Option String → Bool
  | none => false
  | some s => !s.data.isEmpty

/-- Lines 46-62 of modules/ytinteraction.py: compute `before_time` and then
`after_time` from the optional `before`/`after` arguments and the clock. A
given bound goes through `datetime.strptime(_, "%m/%d/%Y")` — whose
ValueError is NOT caught here: these lines precede the `try` block — and is
widened to the end (23:59:59.999999) resp. the start of its day; an absent
`before` is a fresh `datetime.now(timezone.utc)` read (modelled by the same
`now` value) and an absent `after` is `now - relativedelta(years=5)`
truncated to the start of the day. -/
def computeBounds (before after : Option String) (now : DateTime) :
    Except String (DateTime × DateTime) := do
  let before_time : DateTime ←
    if truthyStr before then
      match strptime_mdY (before.getD "") with
      | some (m, d, y) => pure ⟨y, m, d, 23, 59, 59, 999999⟩
      | none => throw "ValueError"
    else pure now
  let after_time : DateTime ←
    if truthyStr after then
      match strptime_mdY (after.getD "") with
      | some (m, d, y) => pure ⟨y, m, d, 0, 0, 0, 0⟩
      | none => throw "ValueError"
    else pure (startOfDay (subYears 5 now))
  pure (before_time, after_time)

/-! ## Video retrieval (modules/ytinteraction.py, ytretriever) -/

/-- The fields of one item of the YouTube search API response that the
retriever reads. -/
structure SearchItem where
  liveBroadcastContent : String
  kind : String
  videoId : String
  title : String
  channelTitle : String
  publishedAt : String
  deriving DecidableEq, Repr

/-- One value of the retriever's `self.info` dictionary: title, channel,
date, id, with `transcript` and `transcript_summary` set to `None`. -/
structure VideoInfo where
  title : String
  channel : String
  date : String
  id : String
  transcript : Option String
  transcript_summary : Option String
  deriving DecidableEq, Repr

/-- Python dict assignment `d[k] = v` on an insertion-ordered dictionary
represented as an association list: an existing key keeps its position and
gets the new value, a new key is appended. -/
def dictInsert (k : String) (v : VideoInfo) :
    List (String × VideoInfo) → List (String × VideoInfo)
  | [] => [(k, v)]
  | (k', v') :: rest =>
      if k' == k then (k, v) :: rest else (k', v') :: dictInsert k v rest

/-- The result loop of `ytretriever` (lines 79-89 of ytinteraction.py): for
each response item with `liveBroadcastContent == 'none'` and
`id.kind == 'youtube#video'`, assign its data to `self.info['id']` — the
FIXED key `'id'`, not the item's video id — so each qualifying item
overwrites the previous one. `self.info` starts empty (`__init__`).
`unescape` is Python's `html.unescape`, applied to the title. -/
def processItems (unescape : String → String) (items : List SearchItem) :
    List (String × VideoInfo) :=
  items.foldl
    (fun info item =>
      if item.liveBroadcastContent == "none" && item.kind == "youtube#video" then
        dictInsert "id"
          ⟨unescape item.title, item.channelTitle, item.publishedAt,
           item.videoId, none, none⟩ info
      else info)
    []

/-- Method `ytretriever` of modules/ytinteraction.py. The date bounds are
computed BEFORE the `try` block, so a strptime ValueError propagates to the
caller (`Except.error`). Inside the `try`, the search call — `apiCall`
receives `publishedAfter` and `publishedBefore` and returns the response
items or a raised error — and the empty-result ValueError are both caught
by `except Exception`, which prints and returns `None`. `query`, `order`,
`duration` and `num_results` only shape the provider request and are
absorbed into `apiCall`. -/
def ytretriever (unescape : String → String) (now : DateTime)
    (apiCall : DateTime → DateTime → Except String (List SearchItem))
    (query order duration : String) (num_results : Nat)
    (before after : Option String) :
    Except String (Option (List (String × VideoInfo))) := do
  let bounds ← computeBounds before after now
  match apiCall bounds.2 bounds.1 with
  | .error _ => pure none
  | .ok items =>
      let info := processItems unescape items
      if info.isEmpty then pure none
      else pure (some info)

/-- One entry of the formatted output of the `youtube_search` tool
(agent.py lines 36-41). -/
def formatVideoEntry (info : VideoInfo) : String :=
  "Title: " ++ info.title ++ "\n" ++
  "Channel: " ++ info.channel ++ "\n" ++
  "Published: " ++ info.date ++ "\n" ++
  "URL: https://youtube.com/watch?v=" ++ info.id ++ "\n"

/-- The deterministic zero-result reply of `youtube_search`. -/
def noVideosString (query : String) : String :=
  "No videos found for query: '" ++ query ++ "'"

/-- Tool `youtube_search` of agent.py: call `ytinteraction().ytretriever`
(whose uncaught exceptions — the strptime of `before`/`after` — propagate),
answer with `noVideosString` when the result is falsy (`None` or an empty
dict), and otherwise join one `formatVideoEntry` per dict entry with a
newline. -/
def youtube_search (unescape : String → String) (now : DateTime)
    (apiCall : DateTime → DateTime → Except String (List SearchItem))
    (query order duration : String) (num_results : Nat)
    (before after : Option String) : Except String String := do
  let results ← ytretriever unescape now apiCall query order duration
      num_results before after
  match results with
  | none => pure (noVideosString query)
  | some info =>
      if info.isEmpty then pure (noVideosString query)
      else pure (String.intercalate "\n" (info.map (fun p => formatVideoEntry p.2)))

/-! ## Tool dispatch and the turn loop (agent.py graph; engine from the spec) -/

/-- Modelled from the spec: langgraph's `ToolNode` (library code, not part
of the repository source; agent.py line 101 only instantiates it with the
two tools). Spec 4.3: execute the ToolInvocationRequests by name against
the tool registry, synchronously and sequentially in emission order; an
unknown tool name, malformed arguments, or an exception raised by the tool
must not abort the turn and instead yields a tool-result message carrying a
failure description in place of output; every request produces exactly one
tool-result message carrying that request's invocation id. `execTool` is
registry lookup plus execution, with `Except.error` covering the three
failure shapes. -/
def tool_node (execTool : ToolInvocationRequest → Except String String)
    (reqs : List ToolInvocationRequest) : List Message :=
  reqs.map (fun r =>
    match execTool r with
    | .ok out => .tool r.id out
    | .error e => .tool r.id e)

/-- Modelled from the spec: the graph execution engine behind `app.invoke`
(langgraph `StateGraph`, library code not in the repository source),
specialised per spec 4.4 to the graph built in agent.py lines 98-118: run
the agent node (`decide`), merge its output into the state by list append
(the `operator.add` reducer of `AgentState`), route with `should_continue`;
on "continue" run the tools node on the last message's tool calls, append
its output, and loop back to the agent node; on "end" stop. `fuel` bounds
the number of decision cycles (the reference behavior places no bound). -/
def runCycles (agentNode : List Message → Message)
    (execTool : ToolInvocationRequest → Except String String) :
    Nat → List Message → List Message
  | 0, msgs => msgs
  | fuel + 1, msgs =>
      let response := agentNode msgs
      let msgs' := msgs ++ [response]
      if should_continue ⟨msgs'⟩ == some "continue" then
        match response with
        | .ai _ tcs => runCycles agentNode execTool fuel (msgs' ++ tool_node execTool tcs)
        | _ => msgs'
      else msgs'

/-- One iteration of the CLI driver loop of agent.py (lines 128-137): append
the user's input to the accumulated history and invoke the compiled graph
on it; the returned message list becomes the accumulated history for the
next turn (`messages = final_state['messages']`). -/
def runTurn (agentNode : List Message → Message)
    (execTool : ToolInvocationRequest → Except String String)
    (fuel : Nat) (messages : List Message) (user_input : String) :
    List Message :=
  runCycles agentNode execTool fuel (messages ++ [.human user_input])

/-! ## Transcript retrieval timing (modules/ytinteraction.py, yttranscript) -/

/-- An external event of the transcript loop: a per-video transcript fetch,
or a `time.sleep`. -/
inductive TranscriptEvent where
  | fetch (video_id : String)
  | sleep (seconds : Nat)
  deriving DecidableEq, Repr

/-- Temporal model of `ytinteraction.yttranscript` (lines 118-139): the
sequence of external calls and pauses performed over the id list,
threading the key set of `self.info` (after `ytretriever` it is the
literal key 'id'; on a fresh instance it is empty). `time.sleep(3)` is the
LAST statement inside the `try` block, so the sleep runs only when the
fetch succeeded (`fetchResult i = some _`) AND the dict update before it
did not raise: with `'id' in self.info` true, line 126 runs
`self.info[id]['transcript'] = transcript`, which raises KeyError unless
the video id itself is a key; otherwise line 128 inserts a fresh entry
under the video id. A raise anywhere jumps to `except: print, continue`
with no sleep before the next fetch. -/
def yttranscript_events (fetchResult : String → Option String) :
    List String → List String → List TranscriptEvent
  | _, [] => []
  | infoKeys, i :: rest =>
      match fetchResult i with
      | none => TranscriptEvent.fetch i ::
          yttranscript_events fetchResult infoKeys rest
      | some _ =>
          if "id" ∈ infoKeys then
            if i ∈ infoKeys then
              TranscriptEvent.fetch i :: TranscriptEvent.sleep 3 ::
                yttranscript_events fetchResult infoKeys rest
            else
              TranscriptEvent.fetch i ::
                yttranscript_events fetchResult infoKeys rest
          else
            TranscriptEvent.fetch i :: TranscriptEvent.sleep 3 ::
              yttranscript_events fetchResult
                (if i ∈ infoKeys then infoKeys else infoKeys ++ [i]) rest

/-- Scan of an event trace checking that every fetch following an earlier
fetch is separated from it by a sleep of at least 3 seconds. `needPause`
records that a fetch has occurred with no qualifying sleep since. -/
def pausesBetweenFetches : Bool → List TranscriptEvent → Bool
  | _, [] => true
  | needPause, .sleep n :: rest =>
      pausesBetweenFetches (needPause && decide (n < 3)) rest
  | needPause, .fetch _ :: rest =>
      !needPause && pausesBetweenFetches true rest

/-! ## Document ingestion (modules/vectorization.py) -/

/-- Whether `needle` occurs as a contiguous prefix of `hay`. -/
def listStartsWith : List Char → List Char → Bool
  | [], _ => true
  | _ :: _, [] => false
  | a :: as, b :: bs => a == b && listStartsWith as bs

/-- Whether `needle` occurs contiguously anywhere in the list. -/
def containsSub (needle : List Char) : List Char → Bool
  | [] => needle.isEmpty
  | c :: t => listStartsWith needle (c :: t) || containsSub needle t

/-- Python's `needle in hay` on strings. -/
def strContains (hay needle : String) : Bool :=
  containsSub needle.data hay.data

/-- ASCII lowering of one character (content-type headers are ASCII). -/
def charLower (c : Char) : Char :=
  if 65 ≤ c.toNat && c.toNat ≤ 90 then Char.ofNat (c.toNat + 32) else c

/-- Python `str.lower()`, restricted to ASCII. -/
def strLower (s : String) : String :=
  ⟨s.data.map charLower⟩

/-- A network request issued by `vectorization_url`. -/
inductive NetEvent where
  | headRequest
  | bodyDownload
  | documentLoad
  deriving DecidableEq, Repr

/-- The outcomes of the external calls `vectorization_url` and
`vectorization` can make: the HEAD round trip (Content-Type header, `""`
when absent, or a raised error including `raise_for_status`), the
`requests.get` body download of the PDF branch, `loader.load()` (PyPDF
parse resp. the HTML loader's fetch-and-parse, yielding document texts),
and the Chroma store-and-persist step of `vectorization`. -/
structure UrlEnv where
  headResult : Except String String
  bodyResult : Except String Unit
  loadResult : Except String (List String)
  storeResult : Except String Unit

/-- Function `vectorization` of modules/vectorization.py: split the
documents, build the embeddings client, and create-and-persist the Chroma
store inside a try/except; True on success, False on a caught store error.
The splitter and the embeddings-client construction are local library calls
modelled as succeeding. -/
def vectorization (env : UrlEnv) (documents : List String) : Bool :=
  match env.storeResult with
  | .ok _ => true
  | .error _ => false

/-- Function `vectorization_url` of modules/vectorization.py, returning its
boolean result together with the network requests it performed. HEAD
failure returns False; a Content-Type containing "application/pdf"
downloads the body then loads it, "text/html" loads via the URL loader; any
other Content-Type returns False with only the HEAD request performed; a
load error, an empty document list, and a store error all return False. -/
def vectorization_url (env : UrlEnv) (document_url : String) :
    Bool × List NetEvent :=
  match env.headResult with
  | .error _ => (false, [.headRequest])
  | .ok contentTypeHeader =>
      let content_type := strLower contentTypeHeader
      if strContains content_type "application/pdf" then
        match env.bodyResult with
        | .error _ => (false, [.headRequest, .bodyDownload])
        | .ok _ =>
            match env.loadResult with
            | .error _ => (false, [.headRequest, .bodyDownload, .documentLoad])
            | .ok docs =>
                if docs.isEmpty then
                  (false, [.headRequest, .bodyDownload, .documentLoad])
                else
                  (vectorization env docs,
                   [.headRequest, .bodyDownload, .documentLoad])
      else if strContains content_type "text/html" then
        match env.loadResult with
        | .error _ => (false, [.headRequest, .documentLoad])
        | .ok docs =>
            if docs.isEmpty then (false, [.headRequest, .documentLoad])
            else (vectorization env docs, [.headRequest, .documentLoad])
      else (false, [.headRequest])

/-! ## Helper lemmas -/

/-- A single digit character denotes a value of at most 9. -/
theorem natOfDigits_singleton_le (l : List Char) (hd : isDigits l = true)
    (hl : l.length = 1) : natOfDigits l ≤ 9 := by
  match l, hl with
  | [c], _ =>
    simp only [isDigits, List.isEmpty_cons, Bool.not_false, Bool.true_and,
      List.all_cons, List.all_nil, Bool.and_true] at hd
    simp only [Char.isDigit, Bool.and_eq_true, decide_eq_true_eq] at hd
    have h57 : c.val.toNat ≤ 57 := UInt32.toNat_le_of_le (by norm_num) hd.2
    simp only [natOfDigits, List.foldl, Char.toNat]
    omega

/-! ## Claim theorems -/

/-- C1: for every conversation state whose last message is an assistant
message carrying at least one tool invocation request, the routing step
`should_continue` returns the dispatch label "continue"; for every state
whose last message is an assistant message with an empty tool-call list, or
any non-assistant message, it returns the terminate label "end". -/
theorem should_continue_dispatch_route (state : AgentState) (last : Message)
    (h : state.messages.getLast? = some last) :
    (∀ c tcs, last = Message.ai c tcs → tcs ≠ [] →
        should_continue state = some "continue") ∧
    (∀ c tcs, last = Message.ai c tcs → tcs = [] →
        should_continue state = some "end") ∧
    ((∀ c tcs, last ≠ Message.ai c tcs) →
        should_continue state = some "end") := by
  refine ⟨?_, ?_, ?_⟩
  · rintro c tcs rfl htcs
    simp [should_continue, h, List.isEmpty_iff, htcs]
  · rintro c tcs rfl rfl
    simp [should_continue, h]
  · intro hne
    cases last with
    | ai c tcs => exact absurd rfl (hne c tcs)
    | system c => simp [should_continue, h]
    | human c => simp [should_continue, h]
    | tool i c => simp [should_continue, h]

/-- Witness for C1: a history ending in a tool-calling assistant message
routes to "continue"; one ending in a plain-text assistant message and one
ending in a user message route to "end". -/
theorem should_continue_dispatch_route_witness :
    should_continue
        ⟨[Message.ai "" [⟨"youtube_search", [("query", "cats")], "call1"⟩]]⟩
      = some "continue" ∧
    should_continue ⟨[Message.ai "Here you go!" []]⟩ = some "end" ∧
    should_continue ⟨[Message.human "hi"]⟩ = some "end" :=
  ⟨(should_continue_dispatch_route
        ⟨[Message.ai "" [⟨"youtube_search", [("query", "cats")], "call1"⟩]]⟩
        (Message.ai "" [⟨"youtube_search", [("query", "cats")], "call1"⟩])
        rfl).1 "" [⟨"youtube_search", [("query", "cats")], "call1"⟩] rfl
        (by simp),
   (should_continue_dispatch_route ⟨[Message.ai "Here you go!" []]⟩
        (Message.ai "Here you go!" []) rfl).2.1 "Here you go!" [] rfl rfl,
   (should_continue_dispatch_route ⟨[Message.human "hi"]⟩
        (Message.human "hi") rfl).2.2 (by intro c tcs; simp)⟩

/-- C10: on every non-empty conversation state the routing step totally and
deterministically returns one of the two labels "continue" and "end", while
on the empty state its last-element access fails (modelled by `none`): the
non-emptiness precondition is exactly what makes its error branch
unreachable. -/
theorem should_continue_total_on_nonempty (state : AgentState) :
    (state.messages = [] → should_continue state = none) ∧
    (state.messages ≠ [] →
        should_continue state = some "continue" ∨
        should_continue state = some "end") := by
  constructor
  · intro h
    simp [should_continue, h]
  · intro h
    have hsome : state.messages.getLast?.isSome := by
      rwa [List.getLast?_isSome]
    obtain ⟨last, hl⟩ := Option.isSome_iff_exists.mp hsome
    cases last with
    | ai c tcs =>
        cases htcs : tcs.isEmpty with
        | true => right; simp [should_continue, hl, htcs]
        | false => left; simp [should_continue, hl, htcs]
    | system c => right; simp [should_continue, hl]
    | human c => right; simp [should_continue, hl]
    | tool i c => right; simp [should_continue, hl]

/-- Witness for C10: the empty history yields the failure value, a
singleton history yields one of the two labels. -/
theorem should_continue_total_on_nonempty_witness :
    should_continue ⟨[]⟩ = none ∧
    (should_continue ⟨[Message.human "hi"]⟩ = some "continue" ∨
     should_continue ⟨[Message.human "hi"]⟩ = some "end") :=
  ⟨(should_continue_total_on_nonempty ⟨[]⟩).1 rfl,
   (should_continue_total_on_nonempty ⟨[Message.human "hi"]⟩).2 (by simp)⟩


/-- Characterization of the `%m` field parser. -/
theorem parseMonthField_eq_some (l : List Char) (v : Nat) :
    parseMonthField l = some v ↔
      (isDigits l = true ∧ v = natOfDigits l ∧ 1 ≤ v ∧ v ≤ 12 ∧
        (l.length = 1 ∨ l.length = 2)) := by
  unfold parseMonthField
  split_ifs with h
  · simp only [Option.some.injEq]
    constructor
    · rintro rfl
      simp only [Bool.and_eq_true, Bool.or_eq_true, decide_eq_true_eq,
        beq_iff_eq] at h
      obtain ⟨hd, hor⟩ := h
      rcases hor with ⟨h1, hge⟩ | ⟨⟨h2, hge⟩, hle⟩
      · exact ⟨hd, rfl, hge,
          le_trans (natOfDigits_singleton_le l hd h1) (by omega), Or.inl h1⟩
      · exact ⟨hd, rfl, hge, hle, Or.inr h2⟩
    · rintro ⟨hd, rfl, _, _, _⟩
      rfl
  · simp only [Bool.and_eq_true, Bool.or_eq_true, decide_eq_true_eq,
      beq_iff_eq] at h
    constructor
    · intro hc
      exact absurd hc (by simp)
    · rintro ⟨hd, rfl, hge, hle, hlen⟩
      exfalso
      apply h
      rcases hlen with h1 | h2
      · exact ⟨hd, Or.inl ⟨h1, hge⟩⟩
      · exact ⟨hd, Or.inr ⟨⟨h2, hge⟩, hle⟩⟩

/-- ASCII decimal digits form the first block of `ndZeroPoints`. -/
theorem ndDigitValue_ascii (c : Char) (h1 : 48 ≤ c.toNat) (h2 : c.toNat ≤ 57) :
    ndDigitValue c = some (c.toNat - 48) := by
  have hcons : ndZeroPoints = 48 :: ndZeroPoints.tail := by rfl
  unfold ndDigitValue
  rw [hcons, @List.find?_cons_of_pos Nat
    (fun z => decide (z ≤ c.toNat) && decide (c.toNat < z + 10)) 48
    ndZeroPoints.tail
    (by simp only [Bool.and_eq_true, decide_eq_true_eq]; omega)]
  rfl

/-- A character at or beyond code point 33 is not the ASCII space. -/
theorem beq_space_eq_false (c : Char) (h : 33 ≤ c.toNat) : (c == ' ') = false := by
  rw [beq_eq_false_iff_ne]
  intro hEq
  subst hEq
  exact absurd h (by decide)

/-- Value of a one-digit day group. -/
theorem fieldIntVal_single (c : Char) (h1 : 49 ≤ c.toNat) (h2 : c.toNat ≤ 57) :
    fieldIntVal [c] = c.toNat - 48 := by
  unfold fieldIntVal
  dsimp only
  rw [beq_space_eq_false c (by omega)]
  simp [natOfNdDigits, ndDigitValue_ascii c (by omega) (by omega)]

/-- Value of a day group matched by the `3[0-1]` alternative. -/
theorem fieldIntVal_thirty (c2 : Char) (h : c2 = '0' ∨ c2 = '1') :
    fieldIntVal ['3', c2] = 30 + (c2.toNat - 48) := by
  rcases h with rfl | rfl <;> decide

/-- Value of a day group matched by the `[1-2]\d` alternative. -/
theorem fieldIntVal_teens (c1 c2 : Char) (h1 : c1 = '1' ∨ c1 = '2')
    (h2 : (ndDigitValue c2).isSome = true) :
    fieldIntVal [c1, c2] = 10 * (c1.toNat - 48) + (ndDigitValue c2).getD 0 := by
  obtain ⟨k, hk⟩ := Option.isSome_iff_exists.mp h2
  rcases h1 with rfl | rfl <;>
    simp [fieldIntVal, natOfNdDigits, hk,
      show ndDigitValue '1' = some 1 from by decide,
      show ndDigitValue '2' = some 2 from by decide,
      show ('1' == ' ') = false from by decide,
      show ('2' == ' ') = false from by decide,
      show ('1').toNat = 49 from rfl,
      show ('2').toNat = 50 from rfl]

/-- Value of a day group matched by the `0[1-9]` alternative. -/
theorem fieldIntVal_zero_pad (c2 : Char) (h1 : 49 ≤ c2.toNat) (h2 : c2.toNat ≤ 57) :
    fieldIntVal ['0', c2] = c2.toNat - 48 := by
  simp [fieldIntVal, natOfNdDigits,
    show ('0' == ' ') = false from by decide,
    show ndDigitValue '0' = some 0 from by decide,
    ndDigitValue_ascii c2 (by omega) (by omega)]

/-- Value of a day group matched by the space-digit alternative
(`int` strips the leading space). -/
theorem fieldIntVal_space_pad (c2 : Char) (h1 : 49 ≤ c2.toNat) (h2 : c2.toNat ≤ 57) :
    fieldIntVal [' ', c2] = c2.toNat - 48 := by
  simp [fieldIntVal, natOfNdDigits, ndDigitValue_ascii c2 (by omega) (by omega)]

/-- Characterization of the `%d` field parser: it accepts exactly the
`dayShape` strings and returns Python `int()` of the match. -/
theorem parseDayField_eq_some (l : List Char) (v : Nat) :
    parseDayField l = some v ↔ (dayShape l = true ∧ v = fieldIntVal l) := by
  match l with
  | [] => simp [parseDayField, dayShape]
  | c1 :: c2 :: c3 :: rest => simp [parseDayField, dayShape]
  | [c] =>
      constructor
      · intro h
        unfold parseDayField at h
        dsimp only at h
        split_ifs at h with hc
        · injection h with h
          subst h
          exact ⟨by simp [dayShape]; omega,
            (fieldIntVal_single c hc.1 hc.2).symm⟩
      · rintro ⟨hs, rfl⟩
        simp only [dayShape, decide_eq_true_eq] at hs
        unfold parseDayField
        dsimp only
        rw [if_pos hs, fieldIntVal_single c hs.1 hs.2]
  | [c1, c2] =>
      constructor
      · intro h
        unfold parseDayField at h
        dsimp only at h
        split_ifs at h with h1 h2 h3 h4 <;> injection h with h <;> subst h
        · obtain ⟨rfl, hc2⟩ := h1
          refine ⟨by simp [dayShape, hc2], (fieldIntVal_thirty c2 hc2).symm⟩
        · obtain ⟨hc1, hnd⟩ := h2
          refine ⟨?_, (fieldIntVal_teens c1 c2 hc1 hnd).symm⟩
          simp [dayShape, hc1, hnd]
        · obtain ⟨rfl, hr⟩ := h3
          refine ⟨by simp [dayShape]; omega,
            (fieldIntVal_zero_pad c2 hr.1 hr.2).symm⟩
        · obtain ⟨rfl, hr⟩ := h4
          refine ⟨by simp [dayShape]; omega,
            (fieldIntVal_space_pad c2 hr.1 hr.2).symm⟩
      · rintro ⟨hs, rfl⟩
        simp only [dayShape, Bool.or_eq_true, Bool.and_eq_true,
          decide_eq_true_eq] at hs
        unfold parseDayField
        dsimp only
        rcases hs with ((⟨rfl, hc2⟩ | ⟨hc1, hnd⟩) | ⟨rfl, hr⟩) | ⟨rfl, hr⟩
        · rw [if_pos ⟨rfl, hc2⟩, fieldIntVal_thirty c2 hc2]
        · rw [if_neg, if_pos ⟨hc1, hnd⟩, fieldIntVal_teens c1 c2 hc1 hnd]
          rintro ⟨rfl, -⟩
          rcases hc1 with h' | h' <;> exact absurd h' (by decide)
        · rw [if_neg, if_neg, if_pos ⟨rfl, hr⟩,
            fieldIntVal_zero_pad c2 hr.1 hr.2]
          · rintro ⟨h', -⟩
            rcases h' with h' | h' <;> exact absurd h' (by decide)
          · rintro ⟨h', -⟩
            exact absurd h' (by decide)
        · rw [if_neg, if_neg, if_neg, if_pos ⟨rfl, hr⟩,
            fieldIntVal_space_pad c2 hr.1 hr.2]
          · rintro ⟨h', -⟩
            exact absurd h' (by decide)
          · rintro ⟨h', -⟩
            rcases h' with h' | h' <;> exact absurd h' (by decide)
          · rintro ⟨h', -⟩
            exact absurd h' (by decide)

/-- Characterization of the `%Y` field parser: exactly four Unicode decimal
digits, value `int()` of the match. -/
theorem parseYearField_eq_some (l : List Char) (v : Nat) :
    parseYearField l = some v ↔
      ((l.all fun c => (ndDigitValue c).isSome) = true ∧ l.length = 4 ∧
        v = natOfNdDigits l) := by
  unfold parseYearField
  split_ifs with h
  · simp only [Bool.and_eq_true, beq_iff_eq] at h
    simp only [Option.some.injEq]
    constructor
    · rintro rfl
      exact ⟨h.1, h.2, rfl⟩
    · rintro ⟨_, _, rfl⟩
      rfl
  · simp only [Bool.and_eq_true, beq_iff_eq] at h
    constructor
    · intro hc
      exact absurd hc (by simp)
    · rintro ⟨ha, hlen, rfl⟩
      exact absurd ⟨ha, hlen⟩ h

/-- C4 counterexample: the claim's iff fails on "5/3/2025" — Python's
strptime accepts one-digit month and day fields, so `validate_date_format`
returns true although the string does not have the claimed two-digit
month/day shape. The space-digit day of "5/ 3/2025" (CPython `%d`'s fifth
alternative) and the Arabic-Indic four-digit year of "05/23/٢٠٢٥"
(`\d` matches Unicode decimal digits) also validate while falling outside
the claimed format. -/
theorem validate_date_two_digit_counterexample :
    validate_date_format "5/3/2025" = true ∧
    claimedTwoDigitFormat "5/3/2025" = false ∧
    validate_date_format "5/ 3/2025" = true ∧
    claimedTwoDigitFormat "5/ 3/2025" = false ∧
    validate_date_format "05/23/٢٠٢٥" = true ∧
    claimedTwoDigitFormat "05/23/٢٠٢٥" = false :=
  ⟨rfl, rfl, rfl, rfl, rfl, rfl⟩

/-- C4 amended: `validate_date_format s` is true iff s splits as
month/day/year where the month is one or two ASCII digits with value 1-12,
the day has one of CPython `%d`'s shapes — one ASCII digit 1-9, '3' before
'0' or '1', '1' or '2' before any Unicode decimal digit, or '0' or an ASCII
space before an ASCII digit 1-9 — the year is exactly four Unicode decimal
digits, the year is at least 1 and the day exists in that month of that
year; and the claim's three cited examples hold. -/
theorem validate_date_format_amended (s : String) :
    (validate_date_format s = amendedDateFormat s) ∧
    validate_date_format "05/23/2025" = true ∧
    validate_date_format "23/05/2025" = false ∧
    validate_date_format "" = false := by
  refine ⟨?_, rfl, rfl, rfl⟩
  rw [Bool.eq_iff_iff]
  unfold validate_date_format strptime_mdY amendedDateFormat
  rcases hs : splitSlash s.data with _ | ⟨ms, _ | ⟨ds, _ | ⟨ys, _ | ⟨a, t⟩⟩⟩⟩ <;>
    try exact Iff.rfl
  dsimp only
  constructor
  · intro hsome
    rcases hpm : parseMonthField ms with _ | m <;>
      rcases hpd : parseDayField ds with _ | d <;>
        rcases hpy : parseYearField ys with _ | y <;>
          rw [hpm, hpd, hpy] at hsome <;> simp at hsome
    obtain ⟨hok1, hok2⟩ := hsome
    obtain ⟨hmd, hmv, hm1, hm12, hmlen⟩ := (parseMonthField_eq_some ms m).mp hpm
    obtain ⟨hds, hdv⟩ := (parseDayField_eq_some ds d).mp hpd
    obtain ⟨hya, hylen, hyv⟩ := (parseYearField_eq_some ys y).mp hpy
    subst hmv hdv hyv
    simp only [Bool.and_eq_true, Bool.or_eq_true, decide_eq_true_eq,
      beq_iff_eq]
    exact ⟨⟨⟨⟨⟨⟨⟨⟨hmd, hmlen⟩, hm1⟩, hm12⟩, hds⟩, hya⟩, hylen⟩, hok1⟩, hok2⟩
  · intro h
    simp only [Bool.and_eq_true, Bool.or_eq_true, decide_eq_true_eq,
      beq_iff_eq] at h
    obtain ⟨⟨⟨⟨⟨⟨⟨⟨hmd, hmlen⟩, hm1⟩, hm12⟩, hds⟩, hya⟩, hylen⟩, hy1⟩, hdim⟩ := h
    have hpm : parseMonthField ms = some (natOfDigits ms) :=
      (parseMonthField_eq_some ms (natOfDigits ms)).mpr
        ⟨hmd, rfl, hm1, hm12, hmlen⟩
    have hpd : parseDayField ds = some (fieldIntVal ds) :=
      (parseDayField_eq_some ds (fieldIntVal ds)).mpr ⟨hds, rfl⟩
    have hpy : parseYearField ys = some (natOfNdDigits ys) :=
      (parseYearField_eq_some ys (natOfNdDigits ys)).mpr ⟨hya, hylen, rfl⟩
    rw [hpm, hpd, hpy]
    dsimp only
    rw [if_pos]
    · rfl
    · simp only [Bool.and_eq_true, decide_eq_true_eq]
      exact ⟨hy1, hdim⟩

/-- A string accepted by strptime is non-empty (it contains two slashes). -/
theorem strptime_nonempty (b : String) (m d y : Nat)
    (h : strptime_mdY b = some (m, d, y)) : b.data.isEmpty = false := by
  cases hb : b.data with
  | nil =>
      unfold strptime_mdY at h
      rw [hb] at h
      simp [splitSlash] at h
  | cons c t => rfl

/-- When the given bounds are absent or parseable, the bound computation
reaches the end of lines 46-62 without raising. -/
theorem computeBounds_ok (before after : Option String) (now : DateTime)
    (hb : truthyStr before = true → (strptime_mdY (before.getD "")).isSome = true)
    (ha : truthyStr after = true → (strptime_mdY (after.getD "")).isSome = true) :
    ∃ p, computeBounds before after now = .ok p := by
  unfold computeBounds
  cases htb : truthyStr before with
  | false =>
      cases hta : truthyStr after with
      | false => exact ⟨_, rfl⟩
      | true =>
          obtain ⟨⟨m, d, y⟩, hsp⟩ := Option.isSome_iff_exists.mp (ha hta)
          simp only [hsp]
          exact ⟨_, rfl⟩
  | true =>
      obtain ⟨⟨m, d, y⟩, hsp⟩ := Option.isSome_iff_exists.mp (hb htb)
      cases hta : truthyStr after with
      | false =>
          simp only [hsp]
          exact ⟨_, rfl⟩
      | true =>
          obtain ⟨⟨m2, d2, y2⟩, hsp2⟩ := Option.isSome_iff_exists.mp (ha hta)
          simp only [hsp, hsp2]
          exact ⟨_, rfl⟩

/-- C2 counterexample: `youtube_search` CAN raise — the strptime of the
`before` argument runs before the retriever's `try` block, so an
unparseable `before` string (here "13/13/2025") propagates a ValueError out
of the tool instead of being reported as a textual result. -/
theorem youtube_search_raises_on_bad_date :
    youtube_search (fun t => t) ⟨2026, 10, 12, 15, 30, 45, 123456⟩
        (fun _ _ => .ok []) "cats" "viewCount" "medium" 1
        (some "13/13/2025") none
      = .error "ValueError" :=
  rfl

/-- C2 amended: whenever the `before`/`after` arguments are absent (or
falsy) or parse under "%m/%d/%Y", `youtube_search` never raises: it returns
some textual result, and both a failing API call and an API response with
zero usable items yield the deterministic no-videos string. Date-parsing
failures of `before`/`after`, however, are NOT caught (see the
counterexample). -/
theorem youtube_search_caught_failures (unescape : String → String)
    (now : DateTime)
    (apiCall : DateTime → DateTime → Except String (List SearchItem))
    (query order duration : String) (num_results : Nat)
    (before after : Option String)
    (hb : truthyStr before = true → (strptime_mdY (before.getD "")).isSome = true)
    (ha : truthyStr after = true → (strptime_mdY (after.getD "")).isSome = true) :
    (∃ s, youtube_search unescape now apiCall query order duration
        num_results before after = .ok s) ∧
    (∀ pubBefore pubAfter e,
        computeBounds before after now = .ok (pubBefore, pubAfter) →
        apiCall pubAfter pubBefore = .error e →
        youtube_search unescape now apiCall query order duration
          num_results before after = .ok (noVideosString query)) ∧
    (∀ pubBefore pubAfter items,
        computeBounds before after now = .ok (pubBefore, pubAfter) →
        apiCall pubAfter pubBefore = .ok items →
        processItems unescape items = [] →
        youtube_search unescape now apiCall query order duration
          num_results before after = .ok (noVideosString query)) := by
  obtain ⟨⟨bt0, at0⟩, hcb⟩ := computeBounds_ok before after now hb ha
  refine ⟨?_, ?_, ?_⟩
  · simp only [youtube_search, ytretriever, hcb, bind, Except.bind]
    cases hapi : apiCall at0 bt0 with
    | error e => exact ⟨_, rfl⟩
    | ok items =>
        cases hinfo : (processItems unescape items).isEmpty with
        | true => simp [hinfo, pure, Except.pure]
        | false =>
            have hne : processItems unescape items ≠ [] := by
              intro hnil
              rw [hnil] at hinfo
              simp at hinfo
            simp [hinfo, hne, pure, Except.pure]
  · intro pubBefore pubAfter e hcb2 hapi
    rw [hcb] at hcb2
    simp only [Except.ok.injEq, Prod.mk.injEq] at hcb2
    obtain ⟨rfl, rfl⟩ := hcb2
    simp [youtube_search, ytretriever, hcb, hapi, bind, Except.bind, pure,
      Except.pure]
  · intro pubBefore pubAfter items hcb2 hapi hempty
    rw [hcb] at hcb2
    simp only [Except.ok.injEq, Prod.mk.injEq] at hcb2
    obtain ⟨rfl, rfl⟩ := hcb2
    simp [youtube_search, ytretriever, hcb, hapi, hempty, bind, Except.bind,
      pure, Except.pure]

/-- Witness for the amended C2: a concrete search with a valid `before`
bound and an empty API response returns a textual result without raising. -/
theorem youtube_search_caught_failures_witness :
    ∃ s, youtube_search (fun t => t) ⟨2026, 10, 12, 15, 30, 45, 123456⟩
        (fun _ _ => .ok []) "dogs" "date" "short" 2
        (some "05/23/2025") none = .ok s :=
  (youtube_search_caught_failures (fun t => t)
      ⟨2026, 10, 12, 15, 30, 45, 123456⟩ (fun _ _ => .ok []) "dogs" "date"
      "short" 2 (some "05/23/2025") none (fun _ => rfl)
      (fun hcontra => absurd hcontra (by decide))).1

/-- C3 (code bug): an API response with two qualifying items yields a reply
containing only the SECOND item's formatted entry. `ytretriever` stores
every qualifying item under the fixed dictionary key 'id'
(`self.info['id'] = ...`, ytinteraction.py line 82), so each item
overwrites the previous one and only the last survives — contradicting the
claimed one-entry-per-qualifying-result output, the retriever's own
docstring (which promises entries keyed by video ID), and the alternate
`ytretriever.py` module that collects all items. -/
theorem youtube_search_single_entry_bug :
    processItems (fun t => t)
        [⟨"none", "youtube#video", "vidA", "Title A", "Chan A",
            "2024-01-01T00:00:00Z"⟩,
         ⟨"none", "youtube#video", "vidB", "Title B", "Chan B",
            "2024-02-02T00:00:00Z"⟩]
      = [("id", ⟨"Title B", "Chan B", "2024-02-02T00:00:00Z", "vidB",
            none, none⟩)] ∧
    youtube_search (fun t => t) ⟨2026, 10, 12, 15, 30, 45, 123456⟩
        (fun _ _ => .ok
          [⟨"none", "youtube#video", "vidA", "Title A", "Chan A",
              "2024-01-01T00:00:00Z"⟩,
           ⟨"none", "youtube#video", "vidB", "Title B", "Chan B",
              "2024-02-02T00:00:00Z"⟩])
        "q" "viewCount" "medium" 2 none none
      = .ok ("Title: Title B\nChannel: Chan B\nPublished: 2024-02-02T00:00:00Z\nURL: https://youtube.com/watch?v=vidB\n") :=
  ⟨rfl, rfl⟩

/-- C5: one dispatch cycle produces exactly one tool-result message per
tool invocation request, sequentially in request order, the i-th result
carrying the i-th request's invocation id — also when the tool execution
fails (unknown tool, malformed arguments, raised exception), in which case
the message carries the failure description. -/
theorem tool_node_correspondence
    (execTool : ToolInvocationRequest → Except String String)
    (reqs : List ToolInvocationRequest) :
    (tool_node execTool reqs).length = reqs.length ∧
    (∀ (i : Nat) (r : ToolInvocationRequest), reqs[i]? = some r →
        ∃ content,
          (tool_node execTool reqs)[i]? = some (Message.tool r.id content)) := by
  constructor
  · simp [tool_node]
  · intro i r h
    cases hexec : execTool r with
    | ok out => exact ⟨out, by simp [tool_node, List.getElem?_map, h, hexec]⟩
    | error e => exact ⟨e, by simp [tool_node, List.getElem?_map, h, hexec]⟩

/-- Witness for C5: two requests — one resolvable, one with an unknown tool
name — produce two tool-result messages; the second carries the second
request's id. -/
theorem tool_node_correspondence_witness :
    (tool_node
        (fun r => if r.name == "youtube_search" then .ok "OK"
                  else .error "unknown tool")
        [⟨"youtube_search", [("query", "cats")], "a"⟩, ⟨"bogus", [], "b"⟩]).length
      = 2 ∧
    ∃ content,
      (tool_node
          (fun r => if r.name == "youtube_search" then .ok "OK"
                    else .error "unknown tool")
          [⟨"youtube_search", [("query", "cats")], "a"⟩,
           ⟨"bogus", [], "b"⟩])[1]?
        = some (Message.tool "b" content) :=
  ⟨(tool_node_correspondence
      (fun r => if r.name == "youtube_search" then .ok "OK"
                else .error "unknown tool")
      [⟨"youtube_search", [("query", "cats")], "a"⟩, ⟨"bogus", [], "b"⟩]).1,
   (tool_node_correspondence
      (fun r => if r.name == "youtube_search" then .ok "OK"
                else .error "unknown tool")
      [⟨"youtube_search", [("query", "cats")], "a"⟩, ⟨"bogus", [], "b"⟩]).2
      1 ⟨"bogus", [], "b"⟩ rfl⟩

/-- C6: the conversation state is append-only — every run of the
decision/routing/dispatch loop returns a message list that has the input
state as a prefix (no removal, replacement or reordering), and a full turn
re-enters with the accumulated state, which again survives as a prefix. -/
theorem conversation_state_append_only (agentNode : List Message → Message)
    (execTool : ToolInvocationRequest → Except String String)
    (fuel : Nat) (msgs : List Message) :
    (msgs <+: runCycles agentNode execTool fuel msgs) ∧
    (∀ user_input, msgs <+: runTurn agentNode execTool fuel msgs user_input) := by
  have main : ∀ f m, m <+: runCycles agentNode execTool f m := by
    intro f
    induction f with
    | zero =>
        intro m
        simp [runCycles]
    | succ n ih =>
        intro m
        simp only [runCycles]
        split
        · split
          · refine List.IsPrefix.trans ?_ (ih _)
            rw [List.append_assoc]
            exact List.prefix_append _ _
          · exact List.prefix_append _ _
        · exact List.prefix_append _ _
  refine ⟨main fuel msgs, fun user_input => ?_⟩
  exact List.IsPrefix.trans (List.prefix_append _ _) (main fuel _)

/-- C7: when `after` is absent, the publish-date lower bound handed to the
provider is exactly five years before the clock value, truncated to the
start of the day; when `before` is absent, the upper bound is the clock
value itself; a given `before` is widened to the end of its parsed day
(23:59:59.999999) and a given `after` to the start of its parsed day. -/
theorem retriever_date_bounds (now : DateTime) :
    (computeBounds none none now
      = .ok (now, startOfDay (subYears 5 now))) ∧
    (∀ b m d y, strptime_mdY b = some (m, d, y) →
        computeBounds (some b) none now
        = .ok (⟨y, m, d, 23, 59, 59, 999999⟩, startOfDay (subYears 5 now))) ∧
    (∀ a m d y, strptime_mdY a = some (m, d, y) →
        computeBounds none (some a) now
        = .ok (now, ⟨y, m, d, 0, 0, 0, 0⟩)) := by
  refine ⟨rfl, ?_, ?_⟩
  · intro b m d y h
    have hb := strptime_nonempty b m d y h
    simp [computeBounds, truthyStr, hb, h]
    rfl
  · intro a m d y h
    have ha := strptime_nonempty a m d y h
    simp [computeBounds, truthyStr, ha, h]
    rfl

/-- Witness for C7: concrete bounds for a given `before` date and an absent
`after` date. -/
theorem retriever_date_bounds_witness :
    computeBounds (some "05/23/2025") none ⟨2026, 10, 12, 15, 30, 45, 123456⟩
      = .ok (⟨2025, 5, 23, 23, 59, 59, 999999⟩, ⟨2021, 10, 12, 0, 0, 0, 0⟩) :=
  (retriever_date_bounds ⟨2026, 10, 12, 15, 30, 45, 123456⟩).2.1
    "05/23/2025" 5 23 2025 rfl

/-- C8 counterexample: no pause separates consecutive transcript fetches on
either error path. `time.sleep(3)` is the LAST statement inside the `try`
block, so it is skipped whenever anything before it raises: (i) after a
successful `ytretriever` run, `self.info` holds the literal key 'id', so
the update `self.info[id]['transcript'] = ...` (ytinteraction.py line 126)
raises KeyError for every real video id and two SUCCESSFUL fetches are
back-to-back with no sleep; (ii) a failing fetch jumps to
`except: continue` with no sleep. This refutes the claim that a pause
occurs between consecutive fetches regardless of the earlier fetch's
outcome (the standalone yttranscript.py module contains no sleep at all). -/
theorem yttranscript_no_pause_counterexample :
    yttranscript_events (fun _ => some "TRANSCRIPT: hi") ["id"]
        ["vidA", "vidB"]
      = [.fetch "vidA", .fetch "vidB"] ∧
    pausesBetweenFetches false
        (yttranscript_events (fun _ => some "TRANSCRIPT: hi") ["id"]
          ["vidA", "vidB"])
      = false ∧
    yttranscript_events (fun _ => none) [] ["a", "b"]
      = [.fetch "a", .fetch "b"] ∧
    pausesBetweenFetches false
        (yttranscript_events (fun _ => none) [] ["a", "b"])
      = false :=
  ⟨rfl, rfl, rfl, rfl⟩

/-- Every successful fetch on a history without the literal 'id' key goes
through the dict-insert branch and is followed by the 3-second sleep. -/
theorem yttranscript_pause_aux (fetchResult : String → Option String) :
    ∀ (ids infoKeys : List String),
      (∀ i ∈ ids, (fetchResult i).isSome = true) →
      "id" ∉ ids → "id" ∉ infoKeys →
      pausesBetweenFetches false (yttranscript_events fetchResult infoKeys ids)
        = true := by
  intro ids
  induction ids with
  | nil =>
      intro infoKeys _ _ _
      rfl
  | cons x xs ih =>
      intro infoKeys hsuc hid hks
      obtain ⟨t, ht⟩ := Option.isSome_iff_exists.mp (hsuc x (by simp))
      rw [yttranscript_events, ht]
      rw [if_neg hks]
      simp only [pausesBetweenFetches, Bool.not_false, Bool.true_and]
      exact ih _ (fun i hi => hsuc i (by simp [hi]))
        (fun hmem => hid (by simp [hmem]))
        (by
          split
          · exact hks
          · intro hmem
            rcases List.mem_append.mp hmem with h | h
            · exact hks h
            · simp only [List.mem_singleton] at h
              exact hid (by simp [h]))

/-- With `self.info` keyed by the retriever's literal 'id', every loop
iteration either fails its fetch or raises KeyError at the dict update, so
the trace consists of fetches only — no sleep ever runs. -/
theorem yttranscript_fetch_only_aux (fetchResult : String → Option String) :
    ∀ ids : List String, "id" ∉ ids →
      ∀ e ∈ yttranscript_events fetchResult ["id"] ids,
        ∃ i, e = TranscriptEvent.fetch i := by
  intro ids
  induction ids with
  | nil =>
      intro _ e he
      simp [yttranscript_events] at he
  | cons x xs ih =>
      intro hid e he
      have hxid : x ≠ "id" := fun hx => hid (by simp [hx])
      rw [yttranscript_events] at he
      have hxmem : x ∉ (["id"] : List String) := by
        simp only [List.mem_singleton]
        exact hxid
      cases hfx : fetchResult x with
      | none =>
          rw [hfx] at he
          rcases List.mem_cons.mp he with rfl | he'
          · exact ⟨x, rfl⟩
          · exact ih (fun hmem => hid (by simp [hmem])) e he'
      | some t =>
          rw [hfx] at he
          rw [if_pos (by simp), if_neg hxmem] at he
          rcases List.mem_cons.mp he with rfl | he'
          · exact ⟨x, rfl⟩
          · exact ih (fun hmem => hid (by simp [hmem])) e he'

/-- C8 amended: a 3-second pause follows a transcript fetch only when the
fetch succeeded AND the transcript-dictionary update did not raise. On a
fresh instance (`self.info` empty, so without the literal 'id' key) every
successful fetch is followed by the pause, giving a pause between all
consecutive fetches; but on the main flow — `yttranscript` called after a
successful `ytretriever`, whose dictionary holds exactly the literal key
'id' — the update raises KeyError for every real video id and NO pause
separates any two fetches, successful or not. -/
theorem yttranscript_pause_characterization
    (fetchResult : String → Option String) (ids : List String)
    (hid : "id" ∉ ids) :
    ((∀ i ∈ ids, (fetchResult i).isSome = true) →
      ∀ infoKeys : List String, "id" ∉ infoKeys →
        pausesBetweenFetches false
          (yttranscript_events fetchResult infoKeys ids) = true) ∧
    (∀ e ∈ yttranscript_events fetchResult ["id"] ids,
        ∃ i, e = TranscriptEvent.fetch i) :=
  ⟨fun hsuc infoKeys hks =>
      yttranscript_pause_aux fetchResult ids infoKeys hsuc hid hks,
   yttranscript_fetch_only_aux fetchResult ids hid⟩

/-- Witness for the amended C8: two successful fetches on a fresh instance
are separated by the pause; on the 'id'-keyed instance the same two
fetches produce a pause-free trace. -/
theorem yttranscript_pause_characterization_witness :
    pausesBetweenFetches false
        (yttranscript_events (fun _ => some "TRANSCRIPT: hi") [] ["a", "b"])
      = true ∧
    (∀ e ∈ yttranscript_events (fun _ => some "TRANSCRIPT: hi") ["id"]
        ["a", "b"],
      ∃ i, e = TranscriptEvent.fetch i) :=
  ⟨(yttranscript_pause_characterization (fun _ => some "TRANSCRIPT: hi")
        ["a", "b"] (by decide)).1 (fun _ _ => rfl) [] (by simp),
   (yttranscript_pause_characterization (fun _ => some "TRANSCRIPT: hi")
        ["a", "b"] (by decide)).2⟩

/-- C9: a HEAD response whose Content-Type contains neither
"application/pdf" nor "text/html" makes `vectorization_url` return False
after the HEAD request only — no body download and no document load — and
on every environment the function returns a boolean (never raises), with
True only when the store step succeeded. -/
theorem vectorization_url_fail_fast (env : UrlEnv) (document_url : String) :
    (∀ ct, env.headResult = .ok ct →
        strContains (strLower ct) "application/pdf" = false →
        strContains (strLower ct) "text/html" = false →
        vectorization_url env document_url = (false, [NetEvent.headRequest])) ∧
    ((vectorization_url env document_url).1 = true ∨
     (vectorization_url env document_url).1 = false) ∧
    ((vectorization_url env document_url).1 = true →
        env.storeResult = .ok ()) := by
  refine ⟨?_, ?_, ?_⟩
  · intro ct hh hpdf hhtml
    simp [vectorization_url, hh, hpdf, hhtml]
  · exact (vectorization_url env document_url).1.eq_false_or_eq_true
  · intro htrue
    unfold vectorization_url at htrue
    rcases env with ⟨hr, br, lr, sr⟩
    cases hr <;> cases br <;> cases lr <;> cases sr <;>
      simp_all [vectorization]
    all_goals split_ifs at htrue

/-- Witness for C9: a HEAD response reporting "image/png" fails fast with
only the HEAD request performed. -/
theorem vectorization_url_fail_fast_witness :
    vectorization_url ⟨.ok "image/png", .ok (), .ok ["doc"], .ok ()⟩ "http://x"
      = (false, [NetEvent.headRequest]) :=
  (vectorization_url_fail_fast
      ⟨.ok "image/png", .ok (), .ok ["doc"], .ok ()⟩ "http://x").1
    "image/png" rfl rfl rfl

end YoutubeAgent
